import Mathlib

/-
Verification of the MongoDB-backed repository layer in
src/justai/frameworks_and_drivers/mongo_repositories.py.

The store is modelled as an in-memory list of documents per collection, in
insertion order (the natural order MongoDB returns for unsorted finds).
Operations are translated method by method from the Python source.  An
operation that can raise returns `Except RepoError`; an error result leaves
the store unchanged (a failed single-document insert writes nothing).

Identifier values: a MongoDB document `_id` is either a store-native
ObjectId (rendered here by its 24-character lowercase hex form) or a plain
string (the Python code inserts `conversation.id`, a string, as `_id` on
explicit-id creates).  The same sum type models the Python value held in a
domain `Conversation.id` slot, which the code populates sometimes with a
string and sometimes with a raw ObjectId.
-/

deriving instance DecidableEq for Except

namespace JustAI

/-- A document-boundary / domain identifier value: either a store-native
ObjectId (with its canonical lowercase 24-hex spelling) or a plain string. -/
inductive MongoId where
  | oid (hex : String)
  | str (s : String)
deriving DecidableEq

/-- Python `str()` applied to an identifier value: an ObjectId prints as its
hex form, a string prints as itself. -/
def idStr : MongoId → String
  | MongoId.oid h => h
  | MongoId.str s => s

/-- Python truthiness of an identifier value: any ObjectId is truthy, a
string is truthy iff nonempty. -/
def idTruthyVal : MongoId → Bool
  | MongoId.oid _ => true
  | MongoId.str s => !s.isEmpty

/-- Python truthiness of `conversation.id` (`None`, a string, or an ObjectId). -/
def idTruthy : Option MongoId → Bool
  | none => false
  | some v => idTruthyVal v

/-- Hexadecimal digit test, as accepted by `bson.ObjectId`. -/
def isHexChar (c : Char) : Bool :=
  c.isDigit || (('a' : Char) ≤ c && c ≤ ('f' : Char)) || (('A' : Char) ≤ c && c ≤ ('F' : Char))

/-- A string accepted by the `bson.ObjectId` constructor: exactly 24
hexadecimal characters. -/
def isValidObjectIdString (s : String) : Bool :=
  s.length == 24 && s.toList.all isHexChar

/-- Lowercase an uppercase hexadecimal letter, identity elsewhere (the only
case folding `bson.ObjectId` performs on its validated hex input). -/
def lowerHexChar (c : Char) : Char :=
  if c = 'A' then 'a' else if c = 'B' then 'b' else if c = 'C' then 'c'
  else if c = 'D' then 'd' else if c = 'E' then 'e' else if c = 'F' then 'f' else c

/-- Lowercase the hexadecimal letters of a string. -/
def strLowerHex (s : String) : String :=
  ⟨s.data.map lowerHexChar⟩

/-- `bson.ObjectId(s)`: yields the canonical (lowercased) ObjectId for a
well-formed 24-hex string and `none` (the `InvalidId` error) otherwise. -/
def objectIdOf (s : String) : Option MongoId :=
  if isValidObjectIdString s then some (MongoId.oid (strLowerHex s)) else none

/-- Modelled from the spec (the `justai.entities` package is not under src):
a chat message with a `role` and a `content` string; its document form is
the field set (role, content), identical in shape. -/
structure Message where
  role : String
  content : String
deriving DecidableEq

/-- Modelled from the spec (the `justai.entities` package is not under src):
an agent with a unique `name`, a `system_prompt` and an ordered list of
`dataset_generation_prompts`. -/
structure Agent where
  name : String
  system_prompt : String
  dataset_generation_prompts : List String
deriving DecidableEq

/-- Modelled from the spec (the `justai.entities` package is not under src):
a conversation with an `agent_name`, an ordered `messages` list, and an
optional identifier (`None` when the store is to assign one). -/
structure Conversation where
  agent_name : String
  messages : List Message
  id : Option MongoId
deriving DecidableEq

/-- Errors surfaced by repository operations. -/
inductive RepoError where
  /-- A Python `ValueError` raised by the repository itself (domain-level). -/
  | valueError (msg : String)
  /-- A raw `pymongo.errors.DuplicateKeyError` escaping untranslated. -/
  | duplicateKey
  /-- A raw `bson.errors.InvalidId` from the `ObjectId` constructor. -/
  | invalidId
  /-- A raw `TypeError` from `insert_many` on an empty document list. -/
  | typeError
deriving DecidableEq

/-- A document of the `conversation` collection.  The repository writes only
the fields `_id`, `agent_name` and `messages`; the slots for a literal `id`
field and a literal `agent_prompt` field (queried by `create` and by
`delete_by_agent_object` respectively, but never written by any repository
operation) are kept so those filters stay honestly expressible. -/
structure ConvDoc where
  mongoId : MongoId
  idField : Option String
  agentPromptField : Option String
  agent_name : String
  messages : List Message
deriving DecidableEq

/-- A document of the `agent` collection. -/
structure AgentDoc where
  name : String
  system_prompt : String
  dataset_generation_prompts : List String
deriving DecidableEq

/-- A document of the `backup` collection: the `to_dict` form of a
conversation (modelled from the spec: a denormalized snapshot of the
conversation, same shape). -/
structure BackupDoc where
  agent_name : String
  messages : List Message
  id : Option MongoId
deriving DecidableEq

/-- Modelled from the spec (the `justai.entities` package is not under src):
`Conversation.to_dict`, the document form of a conversation snapshot. -/
def Conversation.to_dict (c : Conversation) : BackupDoc :=
  ⟨c.agent_name, c.messages, c.id⟩

/-- Does the Mongo equality filter on the literal field `"id"` match this
document?  A missing field matches no string value; an ObjectId query value
never equals a stored string. -/
def idFieldMatches (v : MongoId) (d : ConvDoc) : Bool :=
  match v with
  | MongoId.str s => decide (d.idField = some s)
  | MongoId.oid _ => false

/-- Replace the first element satisfying `p` by its image under `f`
(MongoDB `update_one` semantics on the natural order). -/
def updateFirst {α : Type} (p : α → Bool) (f : α → α) : List α → List α
  | [] => []
  | a :: as => if p a then f a :: as else a :: updateFirst p f as

namespace MongoAgentRepository

/-- `collection.insert_one` on the `agent` collection.  Modelled from the
spec: agent-name uniqueness is enforced by the store (the unique index
itself is external setup, not in src), so inserting a colliding name raises
`DuplicateKeyError`. -/
def insertOne (db : List AgentDoc) (d : AgentDoc) : Except RepoError (List AgentDoc) :=
  if db.any (fun e => decide (e.name = d.name)) then Except.error RepoError.duplicateKey
  else Except.ok (db ++ [d])

/-- `MongoAgentRepository.create`: insert the agent document, translating
`DuplicateKeyError` into a domain `ValueError`. -/
def create (db : List AgentDoc) (agent : Agent) : Except RepoError (List AgentDoc) :=
  match insertOne db ⟨agent.name, agent.system_prompt, agent.dataset_generation_prompts⟩ with
  | Except.error RepoError.duplicateKey =>
      Except.error (RepoError.valueError ("Agent with name " ++ agent.name ++ " already exists."))
  | r => r

/-- `MongoAgentRepository.delete`: `delete_one` on the name (removes the
first match in natural order; never raises). -/
def delete (db : List AgentDoc) (agent : Agent) : List AgentDoc :=
  db.eraseP (fun d => decide (d.name = agent.name))

end MongoAgentRepository

namespace MongoConversationRepository

/-- `collection.insert_one` on the `conversation` collection: raises
`DuplicateKeyError` when the `_id` collides with an existing document. -/
def insertOne (db : List ConvDoc) (d : ConvDoc) : Except RepoError (List ConvDoc) :=
  if db.any (fun e => decide (e.mongoId = d.mongoId)) then Except.error RepoError.duplicateKey
  else Except.ok (db ++ [d])

/-- `MongoConversationRepository.create`.  With a truthy `conversation.id`
the code first runs `find_one` on the literal field `"id"` (not `"_id"`) and
raises the domain `ValueError` on a hit, then inserts with `_id` set to the
supplied id; otherwise it inserts and lets the store assign `newOid`. -/
def create (db : List ConvDoc) (conversation : Conversation) (newOid : String) :
    Except RepoError (List ConvDoc) :=
  match conversation.id with
  | some v =>
      if idTruthyVal v then
        if (db.find? (idFieldMatches v)).isSome then
          Except.error (RepoError.valueError
            ("Conversation with id " ++ idStr v ++ " already exists."))
        else
          insertOne db ⟨v, none, none, conversation.agent_name, conversation.messages⟩
      else
        insertOne db ⟨MongoId.oid newOid, none, none, conversation.agent_name, conversation.messages⟩
  | none =>
      insertOne db ⟨MongoId.oid newOid, none, none, conversation.agent_name, conversation.messages⟩

/-- Reconstruction used by `get_by_agent_name` and `get_all`: rebuild each
message from its document and render the `_id` through `str()`. -/
def docToConversation (d : ConvDoc) : Conversation :=
  ⟨d.agent_name, d.messages.map (fun m => Message.mk m.role m.content),
    some (MongoId.str (idStr d.mongoId))⟩

/-- `MongoConversationRepository.get_by_agent_name`. -/
def get_by_agent_name (db : List ConvDoc) (agent_name : String) : List Conversation :=
  (db.filter (fun d => decide (d.agent_name = agent_name))).map docToConversation

/-- `MongoConversationRepository.get_all`. -/
def get_all (db : List ConvDoc) : List Conversation :=
  db.map docToConversation

/-- `MongoConversationRepository.get_by_id`: builds `ObjectId(conversation_id)`
(raising `InvalidId` on an ill-formed string), looks `_id` up, and returns
the document with its **raw** `_id` in the id slot (no `str()` here, unlike
the other two read paths); raises a domain `ValueError` when absent. -/
def get_by_id (db : List ConvDoc) (conversation_id : String) : Except RepoError Conversation :=
  match objectIdOf conversation_id with
  | none => Except.error RepoError.invalidId
  | some o =>
      match db.find? (fun d => decide (d.mongoId = o)) with
      | some d =>
          Except.ok ⟨d.agent_name, d.messages.map (fun m => Message.mk m.role m.content),
            some d.mongoId⟩
      | none =>
          Except.error (RepoError.valueError
            ("Conversation with id " ++ conversation_id ++ " does not exist."))

/-- `MongoConversationRepository.update`: `update_one` matching `_id`
against the **raw** value of `current_conversation.id` (no ObjectId
conversion), setting `agent_name` and `messages`.  A `None` id gives the
filter value `null`, which matches no stored document. -/
def update (db : List ConvDoc) (current_conversation updated_conversation : Conversation) :
    List ConvDoc :=
  match current_conversation.id with
  | none => db
  | some v =>
      updateFirst (fun d => decide (d.mongoId = v))
        (fun d => { d with agent_name := updated_conversation.agent_name,
                           messages := updated_conversation.messages }) db

/-- `MongoConversationRepository.update_agent_field`: `update_many` over
`agent_name`, setting the new name and rewriting `content` of exactly the
embedded messages whose `role` is `"system"` (the array filter). -/
def update_agent_field (db : List ConvDoc) (current_agent updated_agent : Agent) :
    List ConvDoc :=
  db.map (fun d =>
    if d.agent_name = current_agent.name then
      { d with agent_name := updated_agent.name,
               messages := d.messages.map (fun m =>
                 if m.role = "system" then { m with content := updated_agent.system_prompt }
                 else m) }
    else d)

/-- `MongoConversationRepository.delete_by_agent_name`: `delete_many` on the
agent name; never raises. -/
def delete_by_agent_name (db : List ConvDoc) (agent_name : String) : List ConvDoc :=
  db.filter (fun d => decide (¬ (d.agent_name = agent_name)))

/-- `MongoConversationRepository.delete_by_agent_object`: `delete_many` on
the agent name **and** a literal `agent_prompt` field (a field no
repository write ever produces); never raises. -/
def delete_by_agent_object (db : List ConvDoc) (agent : Agent) : List ConvDoc :=
  db.filter (fun d =>
    decide (¬ (d.agent_name = agent.name ∧ d.agentPromptField = some agent.system_prompt)))

/-- `MongoConversationRepository.delete_by_id`: builds
`ObjectId(conversation_id)` (raising `InvalidId` on an ill-formed string)
and then `delete_one` on `_id`; matching nothing is not an error. -/
def delete_by_id (db : List ConvDoc) (conversation_id : String) :
    Except RepoError (List ConvDoc) :=
  match objectIdOf conversation_id with
  | none => Except.error RepoError.invalidId
  | some o => Except.ok (db.eraseP (fun d => decide (d.mongoId = o)))

end MongoConversationRepository

namespace MongoBackupRepository

/-- The runtime shape of the `conversations` argument of
`backup_conversations`: a bare conversation or a list (`isinstance` check). -/
inductive ConvsArg where
  | one (c : Conversation)
  | many (cs : List Conversation)

/-- `MongoBackupRepository.backup_conversations`: a list goes through
`insert_many` over the `to_dict` forms (pymongo raises a `TypeError` on an
empty document list), a bare conversation through `insert_one`. -/
def backup_conversations (db : List BackupDoc) (conversations : ConvsArg) :
    Except RepoError (List BackupDoc) :=
  match conversations with
  | ConvsArg.many cs =>
      if cs.isEmpty then Except.error RepoError.typeError
      else Except.ok (db ++ cs.map Conversation.to_dict)
  | ConvsArg.one c => Except.ok (db ++ [Conversation.to_dict c])

end MongoBackupRepository

/-- Conversation-store states reachable through the repository writes the
spec names (create, update, update_agent_field) from an empty collection. -/
inductive WrittenByRepo : List ConvDoc → Prop where
  | nil : WrittenByRepo []
  | create (db db' : List ConvDoc) (c : Conversation) (newOid : String) :
      WrittenByRepo db → MongoConversationRepository.create db c newOid = Except.ok db' →
      WrittenByRepo db'
  | update (db : List ConvDoc) (cur upd : Conversation) :
      WrittenByRepo db → WrittenByRepo (MongoConversationRepository.update db cur upd)
  | updateAgentField (db : List ConvDoc) (cur upd : Agent) :
      WrittenByRepo db → WrittenByRepo (MongoConversationRepository.update_agent_field db cur upd)

/-- A valid 24-hex ObjectId spelling used in concrete scenarios. -/
def exIdX : String := "507f1f77bcf86cd799439011"

/-- A second, distinct valid ObjectId spelling. -/
def exOidH : String := "507f1f77bcf86cd799439012"

/-- A third, distinct valid ObjectId spelling. -/
def exOidB : String := "507f1f77bcf86cd799439013"

/-- A concrete ordered message list: one system message, one user message. -/
def exMsgs : List Message := [⟨"system", "You are helpful"⟩, ⟨"user", "hi"⟩]

/-- A conversation carrying the explicit id `exIdX`. -/
def exConvX : Conversation := ⟨"bot", exMsgs, some (MongoId.str exIdX)⟩

/-- The document the repository writes for `exConvX`: note the `_id` is the
plain string. -/
def exDocX : ConvDoc := ⟨MongoId.str exIdX, none, none, "bot", exMsgs⟩

/-- A conversation created without an id (the store assigns one). -/
def exConvAuto : Conversation := ⟨"bot", exMsgs, none⟩

/-- The document for `exConvAuto` once the store assigned `exOidH`. -/
def exDocH : ConvDoc := ⟨MongoId.oid exOidH, none, none, "bot", exMsgs⟩

/-- A document for a different agent, used for frame conditions. -/
def exDocOther : ConvDoc := ⟨MongoId.oid exOidB, none, none, "other", [⟨"system", "s"⟩]⟩

/-- The agent owning the concrete conversations. -/
def exAgentBot : Agent := ⟨"bot", "You are helpful", []⟩

/-- The renamed agent of the propagation scenario. -/
def exAgentUpd : Agent := ⟨"bot2", "Be terse", []⟩

/-- An agent matching nothing in the concrete stores. -/
def exAgentZed : Agent := ⟨"zed", "p", []⟩

/-- A stored agent document named bot. -/
def exAgentDocP : AgentDoc := ⟨"bot", "p", []⟩

/-- A second agent value that collides with `exAgentDocP` on the name. -/
def exAgentQ : Agent := ⟨"bot", "q", []⟩

/-- Rebuilding each message from its role and content is the identity. -/
lemma map_mk_messages (ms : List Message) :
    ms.map (fun m => Message.mk m.role m.content) = ms := by
  induction ms with
  | nil => rfl
  | cons m t ih => simp [ih]

/-- `updateFirst` preserves any pointwise property preserved by the
update function. -/
lemma updateFirst_forall {α : Type} {p : α → Bool} {f : α → α} {P : α → Prop}
    (hf : ∀ a, P a → P (f a)) :
    ∀ {l : List α}, (∀ a ∈ l, P a) → ∀ a ∈ updateFirst p f l, P a := by
  intro l
  induction l with
  | nil => intro _ a ha; simp [updateFirst] at ha
  | cons b t ih =>
      intro hl a ha
      simp only [updateFirst] at ha
      by_cases hb : p b = true
      · rw [if_pos hb] at ha
        rcases List.mem_cons.mp ha with h1 | h2
        · exact h1 ▸ hf b (hl b (List.mem_cons_self b t))
        · exact hl a (List.mem_cons_of_mem _ h2)
      · rw [if_neg hb] at ha
        rcases List.mem_cons.mp ha with h1 | h2
        · exact h1 ▸ hl b (List.mem_cons_self b t)
        · exact ih (fun x hx => hl x (List.mem_cons_of_mem _ hx)) a h2

namespace MongoConversationRepository

/-- A successful `insert_one` appends the document and certifies that its
`_id` was fresh. -/
lemma insertOne_ok {db db' : List ConvDoc} {d : ConvDoc}
    (h : insertOne db d = Except.ok db') :
    db' = db ++ [d] ∧ ∀ e ∈ db, e.mongoId ≠ d.mongoId := by
  unfold insertOne at h
  split at h
  · exact Except.noConfusion h
  · next hc =>
    injection h with h2
    refine ⟨h2.symm, ?_⟩
    intro e he heq
    exact hc (List.any_eq_true.mpr ⟨e, he, by simp [heq]⟩)

/-- The shape of any successful `create`: the new document is appended, its
identifier was fresh, and in the store-assigned case it is `oid newOid`. -/
lemma create_ok_shape {db db' : List ConvDoc} {c : Conversation} {newOid : String}
    (h : create db c newOid = Except.ok db') :
    ∃ mid, db' = db ++ [ConvDoc.mk mid none none c.agent_name c.messages] ∧
      (∀ d ∈ db, d.mongoId ≠ mid) ∧
      (idTruthy c.id = false → mid = MongoId.oid newOid) := by
  cases hid : c.id with
  | none =>
      simp only [create, hid] at h
      obtain ⟨h1, h2⟩ := insertOne_ok h
      exact ⟨MongoId.oid newOid, h1, h2, fun _ => rfl⟩
  | some v =>
      simp only [create, hid] at h
      by_cases ht : idTruthyVal v = true
      · rw [if_pos ht] at h
        by_cases hfind : (db.find? (idFieldMatches v)).isSome = true
        · rw [if_pos hfind] at h
          exact Except.noConfusion h
        · rw [if_neg hfind] at h
          obtain ⟨h1, h2⟩ := insertOne_ok h
          refine ⟨v, h1, h2, fun hfalse => ?_⟩
          simp only [idTruthy] at hfalse
          exact absurd ht (by simp [hfalse])
      · rw [if_neg ht] at h
        obtain ⟨h1, h2⟩ := insertOne_ok h
        exact ⟨MongoId.oid newOid, h1, h2, fun _ => rfl⟩

end MongoConversationRepository

/-- Every document in a state written purely by the repository operations
has no literal `id` field and no literal `agent_prompt` field. -/
lemma writtenByRepo_fields {db : List ConvDoc} (h : WrittenByRepo db) :
    ∀ d ∈ db, d.idField = none ∧ d.agentPromptField = none := by
  induction h with
  | nil => intro d hd; simp at hd
  | create db db' c newOid hw hok ih =>
      obtain ⟨mid, rfl, _, _⟩ := MongoConversationRepository.create_ok_shape hok
      intro d hd
      rcases List.mem_append.mp hd with h1 | h2
      · exact ih d h1
      · rw [List.mem_singleton.mp h2]
        exact ⟨rfl, rfl⟩
  | update db cur upd hw ih =>
      cases hcid : cur.id with
      | none => simpa [MongoConversationRepository.update, hcid] using ih
      | some v =>
          simp only [MongoConversationRepository.update, hcid]
          exact updateFirst_forall (fun a pa => ⟨pa.1, pa.2⟩) ih
  | updateAgentField db cur upd hw ih =>
      intro d hd
      obtain ⟨a, ha, rfl⟩ := List.mem_map.mp hd
      by_cases hcase : a.agent_name = cur.name
      · rw [if_pos hcase]
        exact ⟨(ih a ha).1, (ih a ha).2⟩
      · rw [if_neg hcase]
        exact ih a ha

/-- Claim C1: creating a conversation with an explicit identifier fails with
an already-exists error and inserts nothing when the store already holds a
record under that identifier, and otherwise inserts a document whose record
identifier is the supplied id.  As the claim notes, the pre-existence check
queries the literal field id, which no repository-written document carries
(hypothesis hrepo), so on a collision the failure is the store duplicate-key
signal raised by the `_id` unique index rather than the domain ValueError;
either way create fails and writes nothing. -/
theorem claim_C1_create_explicit_id (db : List ConvDoc) (c : Conversation) (v : MongoId)
    (newOid : String) (hid : c.id = some v) (ht : idTruthyVal v = true)
    (hrepo : ∀ d ∈ db, d.idField = none) :
    ((∃ d ∈ db, d.mongoId = v) →
       MongoConversationRepository.create db c newOid = Except.error RepoError.duplicateKey) ∧
    ((∀ d ∈ db, d.mongoId ≠ v) →
       MongoConversationRepository.create db c newOid =
         Except.ok (db ++ [ConvDoc.mk v none none c.agent_name c.messages])) := by
  have hfind : db.find? (idFieldMatches v) = none := by
    apply List.find?_eq_none.mpr
    intro d hd
    cases v with
    | oid h => simp [idFieldMatches]
    | str s => simp [idFieldMatches, hrepo d hd]
  constructor
  · rintro ⟨d, hd, hmid⟩
    have hany : db.any (fun e => decide (e.mongoId = v)) = true :=
      List.any_eq_true.mpr ⟨d, hd, by simp [hmid]⟩
    simp [MongoConversationRepository.create, MongoConversationRepository.insertOne,
      hid, ht, hfind, hany]
  · intro hall
    have hany : db.any (fun e => decide (e.mongoId = v)) = false := by
      rw [Bool.eq_false_iff]
      intro hc
      obtain ⟨d, hd, hdec⟩ := List.any_eq_true.mp hc
      exact hall d hd (by simpa using hdec)
    simp [MongoConversationRepository.create, MongoConversationRepository.insertOne,
      hid, ht, hfind, hany]

/-- Witness for C1 at a concrete store: re-creating `exConvX` over its own
document fails (with the raw duplicate-key error), and creating it in an
empty store inserts the document under the supplied string id. -/
theorem claim_C1_create_explicit_id_witness :
    MongoConversationRepository.create [exDocX] exConvX "" =
      Except.error RepoError.duplicateKey ∧
    MongoConversationRepository.create [] exConvX "" = Except.ok [exDocX] :=
  ⟨(claim_C1_create_explicit_id [exDocX] exConvX (MongoId.str exIdX) "" rfl (by decide)
      (by decide)).1 ⟨exDocX, by simp, rfl⟩,
   (claim_C1_create_explicit_id [] exConvX (MongoId.str exIdX) "" rfl (by decide)
      (by decide)).2 (by simp)⟩

/-- Claim C2 fails on the code: `exConvX` is created with the explicit id
`exIdX`, storing the plain string as `_id` (first conjunct), yet
`get_by_id exIdX` raises a not-found ValueError, because it compares
`ObjectId(exIdX)` against the stored string (second conjunct); moreover on a
store-assigned identifier, where the lookup does succeed, the returned
conversation carries the raw ObjectId rather than its string form (third
conjunct).  So the round-trip law and the read-path string conversion both
fail at this concrete input. -/
theorem claim_C2_get_by_id_round_trip_fails :
    MongoConversationRepository.create [] exConvX "" = Except.ok [exDocX] ∧
    MongoConversationRepository.get_by_id [exDocX] exIdX =
      Except.error (RepoError.valueError
        ("Conversation with id " ++ exIdX ++ " does not exist.")) ∧
    MongoConversationRepository.get_by_id [exDocH] exOidH =
      Except.ok ⟨"bot", exMsgs, some (MongoId.oid exOidH)⟩ ∧
    some (MongoId.oid exOidH) ≠ some (MongoId.str exOidH) := by decide

/-- Claim C3 fails on the code: the store holds the conversation under the
store-assigned ObjectId `exOidH`; reading it back yields the domain object
whose id is the string form (first conjunct); updating with that domain
object as `current` matches `_id` against the raw string without conversion,
so no record matches and the store is returned unchanged (second conjunct)
with its `agent_name` still the old one (third conjunct), while the claim
requires that exact record to be overwritten. -/
theorem claim_C3_update_raw_string_id_noop :
    MongoConversationRepository.get_by_agent_name [exDocH] "bot" =
      [Conversation.mk "bot" exMsgs (some (MongoId.str exOidH))] ∧
    MongoConversationRepository.update [exDocH]
        (Conversation.mk "bot" exMsgs (some (MongoId.str exOidH)))
        (Conversation.mk "bot2" [Message.mk "user" "x"] none) = [exDocH] ∧
    exDocH.agent_name = "bot" := by decide

/-- Claim C4: `update_agent_field` keeps the collection size, leaves every
conversation with a different agent name untouched, and on every
conversation with the old agent name it sets the new name, keeps the record
identifier and the never-written fields, and rewrites exactly the embedded
messages whose role is system to the new system prompt, preserving the
positions and every message of another role. -/
theorem claim_C4_update_agent_field_scope (db : List ConvDoc) (cur upd : Agent) :
    (MongoConversationRepository.update_agent_field db cur upd).length = db.length ∧
    ∀ (i : Nat) (d : ConvDoc), db[i]? = some d →
      ((d.agent_name ≠ cur.name →
         (MongoConversationRepository.update_agent_field db cur upd)[i]? = some d) ∧
       (d.agent_name = cur.name →
         ∃ d', (MongoConversationRepository.update_agent_field db cur upd)[i]? = some d' ∧
           d'.agent_name = upd.name ∧
           d'.mongoId = d.mongoId ∧
           d'.idField = d.idField ∧
           d'.agentPromptField = d.agentPromptField ∧
           d'.messages.length = d.messages.length ∧
           ∀ (j : Nat) (m : Message), d.messages[j]? = some m →
             ((m.role = "system" →
                d'.messages[j]? = some (Message.mk m.role upd.system_prompt)) ∧
              (m.role ≠ "system" → d'.messages[j]? = some m)))) := by
  constructor
  · simp [MongoConversationRepository.update_agent_field]
  · intro i d hd
    constructor
    · intro hne
      simp only [MongoConversationRepository.update_agent_field, List.getElem?_map, hd,
        Option.map_some']
      rw [if_neg hne]
    · intro heq
      refine ⟨{d with agent_name := upd.name,
                      messages := d.messages.map (fun m =>
                        if m.role = "system" then {m with content := upd.system_prompt}
                        else m)},
              ?_, rfl, rfl, rfl, rfl, by simp, ?_⟩
      · simp only [MongoConversationRepository.update_agent_field, List.getElem?_map, hd,
          Option.map_some']
        rw [if_pos heq]
      · intro j m hm
        constructor
        · intro hrole
          show (d.messages.map _)[j]? = _
          simp only [List.getElem?_map, hm, Option.map_some']
          rw [if_pos hrole]
        · intro hrole
          show (d.messages.map _)[j]? = _
          simp only [List.getElem?_map, hm, Option.map_some']
          rw [if_neg hrole]

/-- Witness for C4 on a two-conversation store: the conversation of the
other agent is untouched, and the bot conversation gets the new name while
its system message takes the new prompt and the user message is unchanged. -/
theorem claim_C4_update_agent_field_scope_witness :
    (MongoConversationRepository.update_agent_field [exDocH, exDocOther] exAgentBot
      exAgentUpd).length = 2 ∧
    (MongoConversationRepository.update_agent_field [exDocH, exDocOther] exAgentBot
      exAgentUpd)[1]? = some exDocOther ∧
    ∃ d', (MongoConversationRepository.update_agent_field [exDocH, exDocOther] exAgentBot
        exAgentUpd)[0]? = some d' ∧
      d'.agent_name = "bot2" ∧
      d'.messages[0]? = some (Message.mk "system" "Be terse") ∧
      d'.messages[1]? = some (Message.mk "user" "hi") := by
  have h := claim_C4_update_agent_field_scope [exDocH, exDocOther] exAgentBot exAgentUpd
  refine ⟨h.1, (h.2 1 exDocOther (by decide)).1 (by decide), ?_⟩
  obtain ⟨d', hd', hname, _, _, _, _, hmsg⟩ := (h.2 0 exDocH (by decide)).2 (by decide)
  exact ⟨d', hd', hname, (hmsg 0 (Message.mk "system" "You are helpful") (by decide)).1 rfl,
    (hmsg 1 (Message.mk "user" "hi") (by decide)).2 (by decide)⟩

/-- Claim C5: a conversation written by `create` and read back comes back
with exactly the original ordered message sequence: it is the last element
returned by `get_by_agent_name` for its agent and by `get_all`, and, in the
store-assigned-identifier case (where `get_by_id` can find the record at
all, compare C2), `get_by_id` on the assigned identifier also reconstructs
the original sequence. -/
theorem claim_C5_message_order_round_trip (db db' : List ConvDoc) (c : Conversation)
    (newOid : String)
    (hok : MongoConversationRepository.create db c newOid = Except.ok db') :
    (∃ conv, (MongoConversationRepository.get_by_agent_name db' c.agent_name).getLast? =
        some conv ∧ conv.messages = c.messages) ∧
    (∃ conv, (MongoConversationRepository.get_all db').getLast? = some conv ∧
        conv.messages = c.messages) ∧
    (c.id = none → isValidObjectIdString newOid = true → strLowerHex newOid = newOid →
       ∃ conv, MongoConversationRepository.get_by_id db' newOid = Except.ok conv ∧
         conv.messages = c.messages) := by
  obtain ⟨mid, rfl, hfresh, hoid⟩ := MongoConversationRepository.create_ok_shape hok
  refine ⟨⟨MongoConversationRepository.docToConversation
            ⟨mid, none, none, c.agent_name, c.messages⟩, ?_, ?_⟩,
          ⟨MongoConversationRepository.docToConversation
            ⟨mid, none, none, c.agent_name, c.messages⟩, ?_, ?_⟩, ?_⟩
  · rw [MongoConversationRepository.get_by_agent_name, List.filter_append]
    have hsing : List.filter (fun d => decide (d.agent_name = c.agent_name))
        [ConvDoc.mk mid none none c.agent_name c.messages] =
        [ConvDoc.mk mid none none c.agent_name c.messages] := by simp
    rw [hsing, List.map_append]
    exact List.getLast?_concat _
  · simp [MongoConversationRepository.docToConversation, map_mk_messages]
  · rw [MongoConversationRepository.get_all, List.map_append]
    exact List.getLast?_concat _
  · simp [MongoConversationRepository.docToConversation, map_mk_messages]
  · intro hnone hval hlow
    have hmid : mid = MongoId.oid newOid := hoid (by simp [idTruthy, hnone])
    subst hmid
    refine ⟨⟨c.agent_name, c.messages.map (fun m => Message.mk m.role m.content),
      some (MongoId.oid newOid)⟩, ?_, by simp [map_mk_messages]⟩
    have hobj : objectIdOf newOid = some (MongoId.oid newOid) := by
      rw [objectIdOf, if_pos hval, hlow]
    have hdbnone : List.find? (fun d => decide (d.mongoId = MongoId.oid newOid)) db = none := by
      apply List.find?_eq_none.mpr
      intro d hd
      simp [hfresh d hd]
    have hfind : List.find? (fun d => decide (d.mongoId = MongoId.oid newOid))
        (db ++ [ConvDoc.mk (MongoId.oid newOid) none none c.agent_name c.messages]) =
        some (ConvDoc.mk (MongoId.oid newOid) none none c.agent_name c.messages) := by
      rw [List.find?_append, hdbnone, Option.none_or]
      simp
    simp [MongoConversationRepository.get_by_id, hobj, hfind]

/-- Witness for C5: creating the id-less `exConvAuto` in an empty store
with assigned identifier `exOidH`, all three read paths return the original
two messages in order. -/
theorem claim_C5_message_order_round_trip_witness :
    (∃ conv, (MongoConversationRepository.get_by_agent_name [exDocH]
        exConvAuto.agent_name).getLast? = some conv ∧ conv.messages = exConvAuto.messages) ∧
    (∃ conv, (MongoConversationRepository.get_all [exDocH]).getLast? = some conv ∧
        conv.messages = exConvAuto.messages) ∧
    (∃ conv, MongoConversationRepository.get_by_id [exDocH] exOidH = Except.ok conv ∧
        conv.messages = exConvAuto.messages) := by
  have h := claim_C5_message_order_round_trip [] [exDocH] exConvAuto exOidH (by decide)
  exact ⟨h.1, h.2.1, h.2.2 rfl (by decide) (by decide)⟩

/-- Claim C6: creating an agent whose name already exists in the store fails
with the domain-level already-exists ValueError (the duplicate-key signal is
translated, and the error result writes nothing), and otherwise appends a
record carrying the name, system prompt and dataset generation prompts of
the agent. -/
theorem claim_C6_agent_create_duplicate (db : List AgentDoc) (agent : Agent) :
    ((∃ d ∈ db, d.name = agent.name) →
       MongoAgentRepository.create db agent =
         Except.error (RepoError.valueError
           ("Agent with name " ++ agent.name ++ " already exists."))) ∧
    ((∀ d ∈ db, d.name ≠ agent.name) →
       MongoAgentRepository.create db agent =
         Except.ok (db ++ [AgentDoc.mk agent.name agent.system_prompt
           agent.dataset_generation_prompts])) := by
  constructor
  · rintro ⟨d, hd, hname⟩
    have hany : db.any (fun e => decide (e.name = agent.name)) = true :=
      List.any_eq_true.mpr ⟨d, hd, by simp [hname]⟩
    simp [MongoAgentRepository.create, MongoAgentRepository.insertOne, hany]
  · intro hall
    have hany : db.any (fun e => decide (e.name = agent.name)) = false := by
      rw [Bool.eq_false_iff]
      intro hc
      obtain ⟨d, hd, hdec⟩ := List.any_eq_true.mp hc
      exact hall d hd (by simpa using hdec)
    simp [MongoAgentRepository.create, MongoAgentRepository.insertOne, hany]

/-- Witness for C6: creating a second agent named bot over the stored bot
document fails with the domain ValueError; creating it in an empty store
inserts its document. -/
theorem claim_C6_agent_create_duplicate_witness :
    MongoAgentRepository.create [exAgentDocP] exAgentQ =
      Except.error (RepoError.valueError
        ("Agent with name " ++ exAgentQ.name ++ " already exists.")) ∧
    MongoAgentRepository.create [] exAgentQ =
      Except.ok [AgentDoc.mk exAgentQ.name exAgentQ.system_prompt
        exAgentQ.dataset_generation_prompts] :=
  ⟨(claim_C6_agent_create_duplicate [exAgentDocP] exAgentQ).1 ⟨exAgentDocP, by simp, rfl⟩,
   (claim_C6_agent_create_duplicate [] exAgentQ).2 (by simp)⟩

/-- Counterexample to C7 as stated: the string nope matches zero records
(the store is empty), yet `delete_by_id` raises the identifier-construction
error instead of completing without error, because nope is not a well-formed
ObjectId string. -/
theorem claim_C7_counterexample :
    MongoConversationRepository.delete_by_id [] "nope" =
      Except.error RepoError.invalidId := by decide

/-- Claim C7 as amended: for every name and agent matching zero records,
agent delete, delete_by_agent_name and delete_by_agent_object complete
without error and leave the store unchanged; delete_by_id does so for every
well-formed 24-hex identifier string matching zero records (ill-formed
strings raise, see the counterexample and C10). -/
theorem claim_C7_amended_deletion_idempotent (agents : List AgentDoc) (db : List ConvDoc)
    (agent : Agent) (agent_name conversation_id : String)
    (h1 : ∀ d ∈ agents, d.name ≠ agent.name)
    (h2 : ∀ d ∈ db, d.agent_name ≠ agent_name)
    (h3 : ∀ d ∈ db, ¬ (d.agent_name = agent.name ∧
            d.agentPromptField = some agent.system_prompt))
    (h4 : isValidObjectIdString conversation_id = true)
    (h5 : ∀ d ∈ db, d.mongoId ≠ MongoId.oid (strLowerHex conversation_id)) :
    MongoAgentRepository.delete agents agent = agents ∧
    MongoConversationRepository.delete_by_agent_name db agent_name = db ∧
    MongoConversationRepository.delete_by_agent_object db agent = db ∧
    MongoConversationRepository.delete_by_id db conversation_id = Except.ok db := by
  refine ⟨?_, ?_, ?_, ?_⟩
  · rw [MongoAgentRepository.delete]
    apply List.eraseP_of_forall_not
    intro d hd
    simp [h1 d hd]
  · rw [MongoConversationRepository.delete_by_agent_name]
    apply List.filter_eq_self.mpr
    intro d hd
    simp [h2 d hd]
  · rw [MongoConversationRepository.delete_by_agent_object]
    apply List.filter_eq_self.mpr
    intro d hd
    simp only [decide_eq_true_eq]
    exact h3 d hd
  · rw [MongoConversationRepository.delete_by_id, objectIdOf, if_pos h4]
    have : List.eraseP (fun d => decide (d.mongoId = MongoId.oid (strLowerHex conversation_id)))
        db = db := by
      apply List.eraseP_of_forall_not
      intro d hd
      simp [h5 d hd]
    exact congrArg Except.ok this

/-- Witness for the amended C7: deleting the agent zed, conversations of the
absent agent nobody, conversations by the zed agent object, and the absent
well-formed id `exIdX` all leave the one-document stores unchanged. -/
theorem claim_C7_amended_deletion_idempotent_witness :
    MongoAgentRepository.delete [exAgentDocP] exAgentZed = [exAgentDocP] ∧
    MongoConversationRepository.delete_by_agent_name [exDocH] "nobody" = [exDocH] ∧
    MongoConversationRepository.delete_by_agent_object [exDocH] exAgentZed = [exDocH] ∧
    MongoConversationRepository.delete_by_id [exDocH] exIdX = Except.ok [exDocH] :=
  claim_C7_amended_deletion_idempotent [exAgentDocP] [exDocH] exAgentZed "nobody" exIdX
    (by decide) (by decide) (by decide) (by decide) (by decide)

/-- Counterexample to C8 as stated: for a list of N = 0 conversations the
operation does not insert exactly 0 archive documents but raises the raw
driver TypeError, since `insert_many` rejects an empty document list. -/
theorem claim_C8_counterexample :
    MongoBackupRepository.backup_conversations []
      (MongoBackupRepository.ConvsArg.many []) = Except.error RepoError.typeError := by decide

/-- Claim C8 as amended: a single (non-list) conversation inserts exactly
one archive document, its `to_dict` form; a nonempty list of N conversations
inserts exactly N archive documents, the `to_dict` form of each in order
with no deduplication; an empty list raises the driver TypeError. -/
theorem claim_C8_amended_backup_arity (db : List BackupDoc) (c : Conversation)
    (cs : List Conversation) (hne : cs ≠ []) :
    MongoBackupRepository.backup_conversations db (MongoBackupRepository.ConvsArg.one c) =
      Except.ok (db ++ [Conversation.to_dict c]) ∧
    ∃ db', MongoBackupRepository.backup_conversations db
        (MongoBackupRepository.ConvsArg.many cs) = Except.ok db' ∧
      db' = db ++ cs.map Conversation.to_dict ∧
      db'.length = db.length + cs.length := by
  constructor
  · rfl
  · have hemp : cs.isEmpty = false := by
      cases cs with
      | nil => exact absurd rfl hne
      | cons a t => rfl
    refine ⟨db ++ cs.map Conversation.to_dict, ?_, rfl, by simp⟩
    simp [MongoBackupRepository.backup_conversations, hemp]

/-- Witness for the amended C8: one conversation gives one archive document;
the two-element list (the same conversation twice) gives two, duplicated. -/
theorem claim_C8_amended_backup_arity_witness :
    MongoBackupRepository.backup_conversations [] (MongoBackupRepository.ConvsArg.one exConvX) =
      Except.ok ([] ++ [Conversation.to_dict exConvX]) ∧
    ∃ db', MongoBackupRepository.backup_conversations []
        (MongoBackupRepository.ConvsArg.many [exConvX, exConvX]) = Except.ok db' ∧
      db' = [] ++ [exConvX, exConvX].map Conversation.to_dict ∧
      db'.length = List.length ([] : List BackupDoc) + [exConvX, exConvX].length :=
  claim_C8_amended_backup_arity [] exConvX [exConvX, exConvX] (by decide)

/-- Claim C9: on any conversation-store state produced solely by this
repository's own create, update and update_agent_field writes (none of which
produces an `agent_prompt` field), `delete_by_agent_object` matches no
document and leaves the store unchanged, whatever the agent. -/
theorem claim_C9_delete_by_agent_object_noop (db : List ConvDoc) (agent : Agent)
    (h : WrittenByRepo db) :
    MongoConversationRepository.delete_by_agent_object db agent = db := by
  rw [MongoConversationRepository.delete_by_agent_object]
  apply List.filter_eq_self.mpr
  intro d hd
  have h2 := (writtenByRepo_fields h d hd).2
  simp [h2]

/-- Witness for C9 on the state reached by one create: deleting by the very
agent object owning the stored conversation removes nothing. -/
theorem claim_C9_delete_by_agent_object_noop_witness :
    MongoConversationRepository.delete_by_agent_object [exDocH] exAgentBot = [exDocH] :=
  claim_C9_delete_by_agent_object_noop [exDocH] exAgentBot
    (WrittenByRepo.create [] [exDocH] exConvAuto exOidH WrittenByRepo.nil (by decide))

/-- Claim C10: `delete_by_id` raises the identifier-construction error on
every string that is not a well-formed 24-character hexadecimal ObjectId
spelling, and is an error-free no-op on every well-formed identifier string
matching no record. -/
theorem claim_C10_delete_by_id_totality (db : List ConvDoc) (s : String) :
    (isValidObjectIdString s = false →
       MongoConversationRepository.delete_by_id db s = Except.error RepoError.invalidId) ∧
    (isValidObjectIdString s = true →
       (∀ d ∈ db, d.mongoId ≠ MongoId.oid (strLowerHex s)) →
       MongoConversationRepository.delete_by_id db s = Except.ok db) := by
  constructor
  · intro hinv
    rw [MongoConversationRepository.delete_by_id, objectIdOf, if_neg (by simp [hinv])]
  · intro hval hall
    rw [MongoConversationRepository.delete_by_id, objectIdOf, if_pos hval]
    have : List.eraseP (fun d => decide (d.mongoId = MongoId.oid (strLowerHex s))) db = db := by
      apply List.eraseP_of_forall_not
      intro d hd
      simp [hall d hd]
    exact congrArg Except.ok this

/-- Witness for C10: the ill-formed string nope raises on a nonempty store,
and the well-formed absent id `exIdX` is an error-free no-op. -/
theorem claim_C10_delete_by_id_totality_witness :
    MongoConversationRepository.delete_by_id [exDocH] "nope" =
      Except.error RepoError.invalidId ∧
    MongoConversationRepository.delete_by_id [exDocH] exIdX = Except.ok [exDocH] :=
  ⟨(claim_C10_delete_by_id_totality [exDocH] "nope").1 (by decide),
   (claim_C10_delete_by_id_totality [exDocH] exIdX).2 (by decide) (by decide)⟩

end JustAI
